import Mathlib

/-!
Verification of the Device Session Controller of the tauricanbus-canalyst-ii
repository (`src/src/App.vue`, `<script setup>` block).

The Vue component is embedded shallowly:
* the reactive refs (`errorMessage`, `actionMessage`, `boardInfo`,
  `selectedBaud`, `canData`, `canMessage`) become the fields of `AppState`;
* every `async function` of the component becomes a Lean function from an
  `AppState` and the driver's response (the result of the awaited
  `invoke(...)` call, modelled as `Except String _`) to the next `AppState`
  together with the list of Command Gateway invocations it issued;
* the two `listen(...)` handlers registered in `onMounted` become the
  functions `onErrorMessage` and `onCanData`.
-/

/-- Mirrors `interface BoardInfo` (App.vue lines 6-10). -/
structure BoardInfo where
  hardware_version : Nat
  firmware_version : Nat
  serial_number : String
deriving DecidableEq, Repr

/-- Mirrors one entry of the `baudRates` array (App.vue lines 66-84). -/
structure BaudRate where
  rate : String
  timing0 : Nat
  timing1 : Nat
deriving DecidableEq, Repr

/-- Modelled from the spec: the source component keeps no explicit phase
variable; `Phase` is the spec's state-machine abstraction (spec section 4.1,
states `Closed`, `Open`, `Receiving`). It is carried below as a ghost field of
`AppState` so that phase-indexed claims can be stated; no operation of the
embedding ever branches on it, exactly as no function in App.vue consults any
phase. -/
inductive Phase where
  | Closed
  | Open
  | Receiving
deriving DecidableEq, Repr

/-- One Command Gateway invocation, i.e. one `invoke(name, args)` call of
App.vue, recorded with the exact command name and arguments the source
passes. -/
inductive GatewayCall where
  | readBoardInfo (devType devIndex : Nat)
  | openCanDevice (devType devIndex : Nat)
  | stopCanDevice (devType devIndex : Nat)
  | reconnectCanDevice (devType devIndex can1 can2 timing0 timing1 : Nat)
  | startReceivingData (devType devIndex canChannel : Nat)
  | stopReceivingData
  | transmitCanData (data : Int) (devType devIndex canChannel : Nat)
deriving DecidableEq, Repr

/-- The component's reactive state: one field per `ref` of App.vue
(lines 12-13, 23, 86, 111, 141), plus the ghost `phase` (see `Phase`).
`lastError` of the spec is `errorMessage`, `lastActionMessage` is
`actionMessage`, `identity` is `boardInfo`, `lastFrame` is `canData`. -/
structure AppState where
  errorMessage : Option String
  actionMessage : Option String
  boardInfo : Option BoardInfo
  selectedBaud : Option BaudRate
  canData : String
  canMessage : Option Int
  phase : Phase
deriving DecidableEq, Repr

/-- The static baud-rate catalog, entry for entry from App.vue lines 66-84. -/
def baudRates : List BaudRate :=
  [ { rate := "10 Kbps", timing0 := 0x31, timing1 := 0x1C },
    { rate := "20 Kbps", timing0 := 0x18, timing1 := 0x1C },
    { rate := "40 Kbps", timing0 := 0x87, timing1 := 0xFF },
    { rate := "50 Kbps", timing0 := 0x09, timing1 := 0x1C },
    { rate := "80 Kbps", timing0 := 0x83, timing1 := 0xFF },
    { rate := "100 Kbps", timing0 := 0x04, timing1 := 0x1C },
    { rate := "125 Kbps", timing0 := 0x03, timing1 := 0x1C },
    { rate := "200 Kbps", timing0 := 0x81, timing1 := 0xFA },
    { rate := "250 Kbps", timing0 := 0x01, timing1 := 0x1C },
    { rate := "400 Kbps", timing0 := 0x80, timing1 := 0xFA },
    { rate := "500 Kbps", timing0 := 0x00, timing1 := 0x1C },
    { rate := "666 Kbps", timing0 := 0x80, timing1 := 0xB6 },
    { rate := "800 Kbps", timing0 := 0x00, timing1 := 0x16 },
    { rate := "1000 Kbps", timing0 := 0x00, timing1 := 0x14 },
    { rate := "33.33 Kbps", timing0 := 0x09, timing1 := 0x6F },
    { rate := "66.66 Kbps", timing0 := 0x04, timing1 := 0x6F },
    { rate := "83.33 Kbps", timing0 := 0x03, timing1 := 0x6F } ]

/-- The component's initial state: every ref starts at `null` (`none`),
`canData` at `""`, and `selectedBaud` at
`baudRates.find((b) => b.rate === "250 Kbps")` (App.vue line 86); the ghost
phase starts `Closed`. -/
def initState : AppState :=
  { errorMessage := none
    actionMessage := none
    boardInfo := none
    selectedBaud := baudRates.find? (fun b => b.rate == "250 Kbps")
    canData := ""
    canMessage := none
    phase := Phase.Closed }

/-- Mirrors `readBoardInfo` (App.vue lines 26-36): unconditionally invokes
`read_board_info` with devType 4 / devIndex 0; on success stores the response
in `boardInfo`, on failure sets `errorMessage` to the prefixed driver text. -/
def readBoardInfo (s : AppState) (driver : Except String BoardInfo) :
    AppState × List GatewayCall :=
  match driver with
  | .ok info =>
      ({ s with boardInfo := some info }, [GatewayCall.readBoardInfo 4 0])
  | .error e =>
      ({ s with errorMessage := some ("讀取 Board Info 失敗: " ++ e) },
       [GatewayCall.readBoardInfo 4 0])

/-- Mirrors `openCanDevice` (App.vue lines 39-50): invokes `open_can_device`;
on success assigns the response string to `errorMessage` (note: the source
assigns the success status to `errorMessage`, not `actionMessage`) and then
awaits `readBoardInfo()`; on failure sets `errorMessage` to the prefixed
driver text. The ghost phase becomes `Open` on success (spec section 4.1). -/
def openCanDevice (s : AppState) (driverOpen : Except String String)
    (driverRead : Except String BoardInfo) : AppState × List GatewayCall :=
  match driverOpen with
  | .ok response =>
      let s1 : AppState :=
        { s with errorMessage := some response, phase := Phase.Open }
      let r := readBoardInfo s1 driverRead
      (r.1, GatewayCall.openCanDevice 4 0 :: r.2)
  | .error e =>
      ({ s with errorMessage := some ("開啟 CAN 裝置失敗: " ++ e) },
       [GatewayCall.openCanDevice 4 0])

/-- Mirrors `closeCanDevice` (App.vue lines 53-64): invokes `stop_can_device`;
on success assigns the response string to `errorMessage` and clears
`boardInfo` (it does NOT touch `canData`); on failure sets `errorMessage` to
the prefixed driver text. The ghost phase becomes `Closed` on success. -/
def closeCanDevice (s : AppState) (driver : Except String String) :
    AppState × List GatewayCall :=
  match driver with
  | .ok response =>
      ({ s with errorMessage := some response, boardInfo := none,
                phase := Phase.Closed },
       [GatewayCall.stopCanDevice 4 0])
  | .error e =>
      ({ s with errorMessage := some ("關閉 CAN 裝置失敗: " ++ e) },
       [GatewayCall.stopCanDevice 4 0])

/-- Mirrors `reconnectDevice` (App.vue lines 88-107): if no baud profile is
selected, sets the validation message and returns without invoking; otherwise
invokes `reconnect_can_device` carrying the selected profile's timing0 and
timing1; on success stores the response in `actionMessage`, on failure sets
the fixed failure message (the source appends no driver text here). -/
def reconnectDevice (s : AppState) (driver : Except String String) :
    AppState × List GatewayCall :=
  match s.selectedBaud with
  | none => ({ s with errorMessage := some "請選擇一個波特率。" }, [])
  | some baud =>
      match driver with
      | .ok response =>
          ({ s with actionMessage := some response },
           [GatewayCall.reconnectCanDevice 4 0 0 1 baud.timing0 baud.timing1])
      | .error _ =>
          ({ s with errorMessage := some "重新連線 CAN 裝置失敗。" },
           [GatewayCall.reconnectCanDevice 4 0 0 1 baud.timing0 baud.timing1])

/-- Mirrors `startReceivingData` (App.vue lines 119-130): unconditionally
invokes `start_receiving_data`; on success sets `actionMessage`, on failure
sets the prefixed error text. The ghost phase follows the spec's
Open-to-Receiving edge on success. -/
def startReceivingData (s : AppState) (driver : Except String Unit) :
    AppState × List GatewayCall :=
  match driver with
  | .ok _ =>
      ({ s with actionMessage := some "開始接收 CAN 資料...",
                phase := if s.phase = Phase.Open then Phase.Receiving
                         else s.phase },
       [GatewayCall.startReceivingData 4 0 0])
  | .error e =>
      ({ s with errorMessage := some ("開始接收資料失敗: " ++ e) },
       [GatewayCall.startReceivingData 4 0 0])

/-- Mirrors `stopReceivingData` (App.vue lines 132-139): unconditionally
invokes `stop_receiving_data`; on success stores the response in
`actionMessage`, on failure sets the prefixed error text. The ghost phase
follows the spec's Receiving-to-Open edge on success. -/
def stopReceivingData (s : AppState) (driver : Except String String) :
    AppState × List GatewayCall :=
  match driver with
  | .ok response =>
      ({ s with actionMessage := some response,
                phase := if s.phase = Phase.Receiving then Phase.Open
                         else s.phase },
       [GatewayCall.stopReceivingData])
  | .error e =>
      ({ s with errorMessage := some ("停止接收資料失敗: " ++ e) },
       [GatewayCall.stopReceivingData])

/-- Mirrors `transmitCanData` (App.vue lines 142-158): if `canMessage` is
`null` (and only then; `=== null` does not match 0), sets the validation
message and returns without invoking; otherwise invokes `transmit_can_data`
carrying the payload; on success stores the response in `actionMessage`, on
failure sets the prefixed error text. -/
def transmitCanData (s : AppState) (driver : Except String String) :
    AppState × List GatewayCall :=
  match s.canMessage with
  | none => ({ s with errorMessage := some "請輸入要傳送的數據。" }, [])
  | some data =>
      match driver with
      | .ok response =>
          ({ s with actionMessage := some response },
           [GatewayCall.transmitCanData data 4 0 0])
      | .error e =>
          ({ s with errorMessage := some ("傳送 CAN 數據失敗: " ++ e) },
           [GatewayCall.transmitCanData data 4 0 0])

/-- Mirrors the `listen("error-message", ...)` handler registered in
`onMounted` (App.vue lines 16-20): unconditionally overwrites
`errorMessage` with the event payload. -/
def onErrorMessage (s : AppState) (payload : String) : AppState :=
  { s with errorMessage := some payload }

/-- Mirrors the `listen("can-data", ...)` handler registered in `onMounted`
(App.vue lines 113-117): unconditionally overwrites `canData` with the event
payload. -/
def onCanData (s : AppState) (payload : String) : AppState :=
  { s with canData := payload }

/-- C1 (counterexample): the claim says every operation other than `open`
invoked while the phase is `Closed` fails locally, issuing no Command Gateway
invocation and setting `lastError`. In the source no operation checks any
phase: from the initial state (phase `Closed`), `readBoardInfo` issues the
`read_board_info` gateway invocation, and on driver success `errorMessage`
stays unset. -/
theorem C1_closed_phase_counterexample :
    initState.phase = Phase.Closed
    ∧ (readBoardInfo initState
        (Except.ok { hardware_version := 1, firmware_version := 2,
                     serial_number := "ABC123" })).2
        = [GatewayCall.readBoardInfo 4 0]
    ∧ [GatewayCall.readBoardInfo 4 0] ≠ ([] : List GatewayCall)
    ∧ (readBoardInfo initState
        (Except.ok { hardware_version := 1, firmware_version := 2,
                     serial_number := "ABC123" })).1.errorMessage = none := by
  refine ⟨rfl, rfl, ?_, rfl⟩
  decide

/-- C1 (amended): no controller operation is phase-guarded. While the phase
is `Closed`, `readBoardInfo`, `startReceivingData` and `stopReceivingData`
each still issue exactly their Command Gateway invocation, and so does
`transmitCanData` when a payload is present; the only locally failing calls
are `transmitCanData` with an absent payload and `reconnectDevice` with no
selected profile, which issue no gateway invocation and set `errorMessage`
to a descriptive validation message while changing nothing else. -/
theorem C1_no_phase_guard (s : AppState) (h : s.phase = Phase.Closed)
    (dB : Except String BoardInfo) (dS : Except String Unit)
    (dT : Except String String) (v : Int) :
    (readBoardInfo s dB).2 = [GatewayCall.readBoardInfo 4 0]
    ∧ (startReceivingData s dS).2 = [GatewayCall.startReceivingData 4 0 0]
    ∧ (stopReceivingData s dT).2 = [GatewayCall.stopReceivingData]
    ∧ (s.canMessage = some v →
        (transmitCanData s dT).2 = [GatewayCall.transmitCanData v 4 0 0])
    ∧ (s.canMessage = none →
        transmitCanData s dT
          = ({ s with errorMessage := some "請輸入要傳送的數據。" }, []))
    ∧ (s.selectedBaud = none →
        reconnectDevice s dT
          = ({ s with errorMessage := some "請選擇一個波特率。" }, [])) := by
  refine ⟨?_, ?_, ?_, ?_, ?_, ?_⟩
  · cases dB <;> rfl
  · cases dS <;> rfl
  · cases dT <;> rfl
  · intro hm
    cases dT <;> simp [transmitCanData, hm]
  · intro hm
    simp [transmitCanData, hm]
  · intro hb
    simp [reconnectDevice, hb]

/-- C1 (witness for the amended theorem), at the initial state (phase
`Closed`, `canMessage` absent) and at the initial state with the profile
deselected. -/
theorem C1_no_phase_guard_witness :
    (readBoardInfo initState (Except.error "x")).2
      = [GatewayCall.readBoardInfo 4 0]
    ∧ transmitCanData initState (Except.ok "y")
      = ({ initState with errorMessage := some "請輸入要傳送的數據。" }, [])
    ∧ reconnectDevice { initState with selectedBaud := none } (Except.ok "y")
      = ({ initState with selectedBaud := none,
                          errorMessage := some "請選擇一個波特率。" }, []) :=
  ⟨(C1_no_phase_guard initState rfl (Except.error "x") (Except.ok ())
      (Except.ok "y") 0).1,
   (C1_no_phase_guard initState rfl (Except.error "x") (Except.ok ())
      (Except.ok "y") 0).2.2.2.2.1 rfl,
   (C1_no_phase_guard { initState with selectedBaud := none } rfl
      (Except.error "x") (Except.ok ()) (Except.ok "y") 0).2.2.2.2.2 rfl⟩

/-- C2 (code divergence): the claim and the spec scenario expect a successful
`open()` returning "opened" to record "opened" in `lastActionMessage`. The
source instead assigns the driver's success status to `errorMessage`
(App.vue line 45) and never touches `actionMessage`, contradicting the
component's own split between `actionMessage` (rendered under 動作) and
`errorMessage` (rendered under 錯誤, fed by the error-message listener):
after a successful open with identity read, `actionMessage` is still `none`
and `errorMessage` holds "opened". -/
theorem C2_open_status_goes_to_errorMessage :
    (openCanDevice initState (Except.ok "opened")
        (Except.ok { hardware_version := 1, firmware_version := 2,
                     serial_number := "ABC123" })).1.actionMessage = none
    ∧ (openCanDevice initState (Except.ok "opened")
        (Except.ok { hardware_version := 1, firmware_version := 2,
                     serial_number := "ABC123" })).1.errorMessage
        = some "opened"
    ∧ (openCanDevice initState (Except.ok "opened")
        (Except.ok { hardware_version := 1, firmware_version := 2,
                     serial_number := "ABC123" })).1.phase = Phase.Open
    ∧ (openCanDevice initState (Except.ok "opened")
        (Except.ok { hardware_version := 1, firmware_version := 2,
                     serial_number := "ABC123" })).1.boardInfo
        = some { hardware_version := 1, firmware_version := 2,
                 serial_number := "ABC123" } :=
  ⟨rfl, rfl, rfl, rfl⟩

/-- C3 (counterexample): the claim says `close()` clears `lastFrame`
(`canData`). In the source `closeCanDevice` never touches `canData`: closing
successfully from a receiving state with a recorded frame leaves the frame
in place (it stays "ID=123 DATA=0102" instead of being reset to the empty
initial value), while identity is cleared and the phase does become
`Closed`. -/
theorem C3_close_keeps_lastFrame_counterexample :
    (closeCanDevice
        { initState with canData := "ID=123 DATA=0102",
                         phase := Phase.Receiving }
        (Except.ok "stopped")).1.canData = "ID=123 DATA=0102"
    ∧ "ID=123 DATA=0102" ≠ ""
    ∧ (closeCanDevice
        { initState with canData := "ID=123 DATA=0102",
                         phase := Phase.Receiving }
        (Except.ok "stopped")).1.boardInfo = none
    ∧ (closeCanDevice
        { initState with canData := "ID=123 DATA=0102",
                         phase := Phase.Receiving }
        (Except.ok "stopped")).1.phase = Phase.Closed := by
  refine ⟨rfl, ?_, rfl, rfl⟩
  decide

/-- C3 (amended): on every successful `close()`, from any prior phase and any
prior state, identity (`boardInfo`) is cleared and the phase becomes
`Closed`, but `lastFrame` (`canData`) is NOT cleared: it keeps its prior
value. -/
theorem C3_close_clears_identity_not_frame (s : AppState) (r : String) :
    (closeCanDevice s (Except.ok r)).1.boardInfo = none
    ∧ (closeCanDevice s (Except.ok r)).1.phase = Phase.Closed
    ∧ (closeCanDevice s (Except.ok r)).1.canData = s.canData :=
  ⟨rfl, rfl, rfl⟩

/-- C4: whenever `open()` succeeds, exactly one `readBoardInfo` gateway
invocation follows the `open_can_device` one (for any outcome of the identity
read); and when that identity read fails, the phase remains `Open`,
`boardInfo` is left exactly as it was (so an absent identity remains absent),
and `errorMessage` holds the prefixed failure text. -/
theorem C4_open_success_reads_identity_once (s : AppState) (r e : String)
    (dr : Except String BoardInfo) :
    (openCanDevice s (Except.ok r) dr).2
      = [GatewayCall.openCanDevice 4 0, GatewayCall.readBoardInfo 4 0]
    ∧ (openCanDevice s (Except.ok r) (Except.error e)).1.phase = Phase.Open
    ∧ (openCanDevice s (Except.ok r) (Except.error e)).1.boardInfo
        = s.boardInfo
    ∧ (openCanDevice s (Except.ok r) (Except.error e)).1.errorMessage
        = some ("讀取 Board Info 失敗: " ++ e) := by
  refine ⟨?_, rfl, rfl, rfl⟩
  cases dr <;> rfl

/-- C5: `transmitCanData` issues a gateway `transmit_can_data` invocation
exactly when a payload is present. A present payload — including the value
0, which the source's `=== null` check does not confuse with absence — is
forwarded in the invocation; an absent payload issues no invocation and sets
`errorMessage` to the validation message, changing nothing else. -/
theorem C5_transmit_payload_presence (s : AppState)
    (d : Except String String) (v : Int) :
    (s.canMessage = some v →
      (transmitCanData s d).2 = [GatewayCall.transmitCanData v 4 0 0])
    ∧ (s.canMessage = none →
      transmitCanData s d
        = ({ s with errorMessage := some "請輸入要傳送的數據。" }, [])) := by
  constructor
  · intro hm
    cases d <;> simp [transmitCanData, hm]
  · intro hm
    simp [transmitCanData, hm]

/-- C5 (witness): a zero payload is transmitted, carrying 0, and an absent
payload issues no invocation. -/
theorem C5_transmit_payload_presence_witness :
    (transmitCanData { initState with canMessage := some 0 }
        (Except.ok "sent")).2 = [GatewayCall.transmitCanData 0 4 0 0]
    ∧ transmitCanData initState (Except.ok "sent")
        = ({ initState with errorMessage := some "請輸入要傳送的數據。" },
           []) :=
  ⟨(C5_transmit_payload_presence { initState with canMessage := some 0 }
      (Except.ok "sent") 0).1 rfl,
   (C5_transmit_payload_presence initState (Except.ok "sent") 0).2 rfl⟩

/-- C6: `reconnectDevice` with no selected profile issues no gateway
invocation and only sets `errorMessage` to 請選擇一個波特率。, leaving the
phase and every other field unchanged (the result state is the input state
with only `errorMessage` replaced); with a selected profile it issues exactly
one `reconnect_can_device` invocation carrying that profile's timing0 and
timing1, and in particular no `read_board_info` invocation (no implicit
identity re-read). -/
theorem C6_reconfigure_validation (s : AppState) (d : Except String String)
    (b : BaudRate) :
    (s.selectedBaud = none →
      reconnectDevice s d
        = ({ s with errorMessage := some "請選擇一個波特率。" }, []))
    ∧ (s.selectedBaud = some b →
      (reconnectDevice s d).2
        = [GatewayCall.reconnectCanDevice 4 0 0 1 b.timing0 b.timing1]) := by
  constructor
  · intro hb
    simp [reconnectDevice, hb]
  · intro hb
    cases d <;> simp [reconnectDevice, hb]

/-- C6 (witness): at the initial state with the profile deselected no
invocation is issued and only the validation message is set; at the initial
state (selected profile 250 Kbps) the invocation carries timing0 = 0x01 and
timing1 = 0x1C. -/
theorem C6_reconfigure_validation_witness :
    reconnectDevice { initState with selectedBaud := none } (Except.ok "ok")
      = ({ initState with selectedBaud := none,
                          errorMessage := some "請選擇一個波特率。" }, [])
    ∧ (reconnectDevice initState (Except.ok "ok")).2
      = [GatewayCall.reconnectCanDevice 4 0 0 1 0x01 0x1C] :=
  ⟨(C6_reconfigure_validation { initState with selectedBaud := none }
      (Except.ok "ok")
      { rate := "250 Kbps", timing0 := 0x01, timing1 := 0x1C }).1 rfl,
   (C6_reconfigure_validation initState (Except.ok "ok")
      { rate := "250 Kbps", timing0 := 0x01, timing1 := 0x1C }).2 rfl⟩

/-- C7: a frame notification sets `canData` to the delivered payload
unconditionally in every state (hence in every phase), changes no other
field, and a second notification overwrites the first (last-writer-wins). -/
theorem C7_frame_notification_unconditional (s : AppState) (p q : String) :
    onCanData s p = { s with canData := p }
    ∧ (onCanData s p).phase = s.phase
    ∧ onCanData (onCanData s p) q = { s with canData := q } :=
  ⟨rfl, rfl, rfl⟩

/-- C8: a driverError notification overwrites `errorMessage` with the
delivered text in every state, leaving the phase unchanged; in particular,
arriving right after a successful foreground call — a successful `open()`
(whose status string the source had put in `errorMessage`) or a successful
`reconnectDevice` — the final `errorMessage` is the notification text, so
the asynchronous error wins over the call's success message. -/
theorem C8_driverError_notification_wins (s : AppState) (t r : String)
    (dr : Except String BoardInfo) :
    (onErrorMessage s t).errorMessage = some t
    ∧ (onErrorMessage s t).phase = s.phase
    ∧ (onErrorMessage (openCanDevice s (Except.ok r) dr).1 t).errorMessage
        = some t
    ∧ (onErrorMessage (reconnectDevice s (Except.ok r)).1 t).errorMessage
        = some t :=
  ⟨rfl, rfl, rfl, rfl⟩

/-- C9: the baud-rate catalog invariants. The catalog is a fixed constant of
the embedding (nothing in the component mutates `baudRates` after
definition), its labels are pairwise distinct, every timing0 and timing1
value lies within 0x00-0xFF, and the initial state has exactly one selected
profile: the "250 Kbps" entry with timing0 = 0x01 and timing1 = 0x1C, the
result of the source's find over the catalog. -/
theorem C9_baud_catalog_invariants :
    (baudRates.map (fun b => b.rate)).Nodup
    ∧ (∀ b ∈ baudRates, b.timing0 ≤ 0xFF ∧ b.timing1 ≤ 0xFF)
    ∧ initState.selectedBaud
        = some { rate := "250 Kbps", timing0 := 0x01, timing1 := 0x1C }
    ∧ baudRates.find? (fun b => b.rate == "250 Kbps")
        = some { rate := "250 Kbps", timing0 := 0x01, timing1 := 0x1C } := by
  refine ⟨by decide, by decide, rfl, rfl⟩

/-- C10: when `open()` succeeds but the auto-invoked identity read fails, the
status text the successful open had recorded is overwritten by the prefixed
identity-read failure message: after the sequence, `errorMessage` holds
exactly 讀取 Board Info 失敗: followed by the driver text (not the open
status), `actionMessage` is untouched, and `boardInfo` is exactly as before
(an absent identity remains absent). -/
theorem C10_read_failure_overwrites_open_status (s : AppState)
    (r e : String) :
    (openCanDevice s (Except.ok r) (Except.error e)).1.errorMessage
      = some ("讀取 Board Info 失敗: " ++ e)
    ∧ (openCanDevice s (Except.ok r) (Except.error e)).1.actionMessage
      = s.actionMessage
    ∧ (openCanDevice s (Except.ok r) (Except.error e)).1.boardInfo
      = s.boardInfo :=
  ⟨rfl, rfl, rfl⟩
